import Mathlib

/-!
Verification of the swiftreq HTTP request-execution core against its
natural-language specification.  The Go sources are shallowly embedded:
pure functions become Lean functions, the mutable retry loop becomes a
fuel-indexed recursion over an explicit interaction trace, machine
integers become `Int`/`Nat` (with representability hypotheses stated
where 64-bit conversion matters), and fallible calls return `Option`.
-/

namespace Swiftreq

/-! ## String helpers

Go's `regexp.MatchString` on the three patterns used by the retry
classifier reduces to substring / anchored-suffix search:
`unsupported protocol scheme` and `certificate is not trusted` have no
anchors (plain substring search), and `stopped after \d+ redirects\z`
requires the string to end with "stopped after " ++ digits ++ " redirects"
with at least one digit. -/

/-- ASCII decimal digit test (Go regexp `\d`). -/
def isDigitCh (c : Char) : Bool :=
  '0' ≤ c && c ≤ '9'

/-- `charsHasPre pat s` decides whether `s` starts with `pat`. -/
def charsHasPre : List Char → List Char → Bool
  | [], _ => true
  | _ :: _, [] => false
  | p :: ps, c :: cs => p = c && charsHasPre ps cs

/-- `charsHasSub pat s` decides whether `pat` occurs inside `s`. -/
def charsHasSub (pat : List Char) : List Char → Bool
  | [] => pat.isEmpty
  | c :: cs => charsHasPre pat (c :: cs) || charsHasSub pat cs

/-- Substring search on strings (unanchored `regexp.MatchString`). -/
def strMentions (s pat : String) : Bool :=
  charsHasSub pat.data s.data

/-- Matcher for Go's `stopped after \d+ redirects\z`: the string must end
with `"stopped after "`, a non-empty digit run, and `" redirects"`.
Because `"stopped after "` ends in a space, the digit run directly before
`" redirects"` is maximal, so searching for *some* digit run is the same
as stripping the maximal one. -/
def redirectsErrorMatch (s : String) : Bool :=
  let r := s.data.reverse
  let sufR := " redirects".data.reverse
  if charsHasPre sufR r then
    let rest := r.drop sufR.length
    let digits := rest.takeWhile isDigitCh
    decide (digits ≠ []) && charsHasPre "stopped after ".data.reverse (rest.drop digits.length)
  else
    false

/-- Go `strconv.ParseInt(s, 10, 64)`: optional sign, non-empty decimal
digits, value within the `int64` range; `none` models a parse error. -/
def parseInt64 (s : String) : Option Int :=
  let (sign, ds) :=
    match s.data with
    | '+' :: r => ((1 : Int), r)
    | '-' :: r => ((-1 : Int), r)
    | r => ((1 : Int), r)
  if ds = [] ∨ ¬ ds.all isDigitCh then none
  else
    let n : Int := ds.foldl (fun a c => 10 * a + (Int.ofNat c.toNat - 48)) 0
    let v := sign * n
    if -(2 ^ 63) ≤ v ∧ v ≤ 2 ^ 63 - 1 then some v else none

/-! ## HTTP response and error model -/

/-- An `*http.Response` as far as the core inspects it: `StatusCode`,
the `Status` line text, and the header map (Go `http.Header`, a map from
canonical key to a list of values; modelled as an association list). -/
structure HTTPResponse where
  statusCode : Int
  status : String
  header : List (String × List String)
deriving DecidableEq, Repr

/-- Header map lookup, Go `resp.Header[key]` (exact canonical key). -/
def headerGet (h : List (String × List String)) (k : String) : Option (List String) :=
  (h.find? (fun p => p.1 = k)).map (fun p => p.2)

/-- Go `error` values as the retry pipeline distinguishes them:
`urlErr msg unknownCA` is a `*url.Error` whose `Error()` text is `msg`
and whose wrapped `Err` is an `x509.UnknownAuthorityError` iff
`unknownCA`; `simple` is a `fmt.Errorf` without `%w`; `wrapped msg cause`
is a `fmt.Errorf("...: %w", cause)` whose text before the cause is `msg`. -/
inductive GoError where
  | urlErr (msg : String) (unknownCA : Bool)
  | simple (msg : String)
  | wrapped (msg : String) (cause : GoError)
deriving DecidableEq, Repr

/-- The `Error()` string of a modelled Go error. -/
def GoError.message : GoError → String
  | .urlErr m _ => m
  | .simple m => m
  | .wrapped m c => m ++ ": " ++ c.message

/-- `errors.Is`-style reflexive-transitive unwrap: does `e`'s chain
contain `target`? -/
def GoError.hasCause (e target : GoError) : Bool :=
  match e with
  | .wrapped _ c => e = target || c.hasCause target
  | _ => e = target

/-! ## Retry decision (`shouldRetry`, src/unnamed/part_001 lines 32-68) -/

/-- The structurally-unrecoverable classification applied to a
`*url.Error` by `shouldRetry`: its `Error()` text matches the
redirect-limit regexp, or contains `"unsupported protocol scheme"`, or
contains `"certificate is not trusted"`, or its wrapped error is an
`x509.UnknownAuthorityError`. -/
def unrecoverableURLError (msg : String) (unknownCA : Bool) : Bool :=
  redirectsErrorMatch msg || strMentions msg "unsupported protocol scheme" ||
    strMentions msg "certificate is not trusted" || unknownCA

/-- Is a modelled Go error classified unrecoverable by `shouldRetry`?
Only `*url.Error` values are inspected; every other error is retryable. -/
def unrecoverableErr : GoError → Bool
  | .urlErr m u => unrecoverableURLError m u
  | _ => false

/-- `RetryHandler.shouldRetry(ctx, resp, err)` from
src/unnamed/part_001: `ctxErr` models `ctx.Err()` (`none` = context not
done), `resp`/`err` the attempt's outcome.  Returns (retry?, err) with
`err` replaced exactly as the Go code does.  The Go code would nil-panic
when `err == nil && resp == nil` (a handler violating its contract);
that unreachable case is mapped to `(false, none)`. -/
def shouldRetry (ctxErr : Option GoError) (resp : Option HTTPResponse)
    (err : Option GoError) : Bool × Option GoError :=
  match ctxErr with
  | some ce => (false, some ce)
  | none =>
    match err with
    | some e =>
      if unrecoverableErr e then (false, some e) else (true, none)
    | none =>
      match resp with
      | some r =>
        if r.statusCode = 429 then (true, none)
        else if r.statusCode = 0 ∨ (500 ≤ r.statusCode ∧ r.statusCode ≠ 501) then
          (true, some (.simple ("unexpected HTTP status " ++ r.status)))
        else (false, none)
      | none => (false, none)

/-! ## Retry loop (`RetryMiddleware`, src/unnamed/part_001 lines 71-118)

The Go loop is driven by three external interactions per iteration: the
wrapped handler call `next(req)`, the context check `req.Context().Err()`
inside `shouldRetry`, and the `select` between the backoff timer and
`req.Context().Done()`.  A `Trace` fixes all three as functions of the
attempt index, turning the loop into a pure function.  The loop always
terminates within `RetryCount.toNat + 1` iterations (once
`RetryCount - attempt ≤ 0` it breaks), so it is embedded as a
fuel-indexed recursion whose fuel `RetryCount.toNat` is provably never
exhausted from the real entry point. -/

/-- Retry policy (`middlewares.RetryHandler`); waits in nanoseconds
(`time.Duration`), `RetryCount` a Go `int`. -/
structure RetryHandler where
  MinWait : Int
  MaxWait : Int
  RetryCount : Int
  Backoff : Nat → Int → Int → Option HTTPResponse → Int

/-- One request's external interactions, indexed by attempt number:
`next k` is the wrapped handler's `(resp, err)` on the k-th call,
`ctxAt k` is `req.Context().Err()` when `shouldRetry` runs after the
k-th call, and `waitCancel k` is the `select` outcome in the backoff wait
after the k-th call (`some ce`: `ctx.Done()` fired and `ctx.Err() = ce`;
`none`: the timer fired). -/
structure Trace where
  next : Nat → Option HTTPResponse × Option GoError
  ctxAt : Nat → Option GoError
  waitCancel : Nat → Option GoError

/-- The request metadata the retry middleware prints (`req.Method`,
`req.URL`). -/
structure ReqMeta where
  method : String
  url : String
deriving DecidableEq, Repr

/-- How the Go `for` loop was left: `brk` via one of the two `break`s
(with the loop variables at that point), `cancelled` via the
`return nil, req.Context().Err()` inside the wait `select`. -/
inductive LoopExit where
  | brk (attempt : Nat) (resp : Option HTTPResponse) (err : Option GoError) (sr : Bool)
  | cancelled (attempt : Nat) (ce : GoError)
deriving DecidableEq, Repr

/-- The attempt index at which the loop stopped. -/
def LoopExit.attempt : LoopExit → Nat
  | .brk a _ _ _ => a
  | .cancelled a _ => a

/-- Number of `next` invocations made: the loop calls the handler once
per iteration, including the one it stops in. -/
def LoopExit.calls (x : LoopExit) : Nat := x.attempt + 1

/-- One iteration of the `RetryMiddleware` loop at index `attempt`:
call `next`, run `shouldRetry` (which rebinds `err`), break if no retry
is indicated, break if `RetryCount - attempt ≤ 0`, otherwise compute
the backoff wait and block on the timer/context `select`.  `some exit`
means the iteration leaves the loop (a `break` or the in-wait cancelled
return); `none` means it falls through to the next iteration. -/
def retryStep (rh : RetryHandler) (tr : Trace) (attempt : Nat) : Option LoopExit :=
  let p := tr.next attempt
  let d := shouldRetry (tr.ctxAt attempt) p.1 p.2
  if d.1 = false then some (.brk attempt p.1 d.2 d.1)
  else if rh.RetryCount - (attempt : Int) ≤ 0 then some (.brk attempt p.1 d.2 d.1)
  else
    let _wait := rh.Backoff attempt rh.MinWait rh.MaxWait p.1
    match tr.waitCancel attempt with
    | some ce => some (.cancelled attempt ce)
    | none => none

/-- The loop from iteration `attempt` on, with `fuel` bounding the
number of remaining iterations.  The `fuel = 0` fallback mirrors the
budget-exhausted break; it is unreachable from `retryLoop`'s entry fuel
(the loop runs at most `RetryCount.toNat + 1` iterations, see
`retryLoopAux_attempt_le`). -/
def retryLoopAux (rh : RetryHandler) (tr : Trace) (attempt : Nat) : Nat → LoopExit
  | 0 =>
    let p := tr.next attempt
    let d := shouldRetry (tr.ctxAt attempt) p.1 p.2
    .brk attempt p.1 d.2 d.1
  | f + 1 =>
    match retryStep rh tr attempt with
    | some x => x
    | none => retryLoopAux rh tr (attempt + 1) f

/-- The whole loop, started at attempt 0 with adequate fuel. -/
def retryLoop (rh : RetryHandler) (tr : Trace) : LoopExit :=
  retryLoopAux rh tr 0 (rh.RetryCount.toNat + 1)

/-- `"%s %s giving up after %d attempt(s)"` with method, URL, attempt. -/
def giveUpMsg (req : ReqMeta) (attempt : Nat) : String :=
  req.method ++ " " ++ req.url ++ " giving up after " ++ toString attempt ++ " attempt(s)"

/-- The returns after the loop: on a wait-cancellation,
`(nil, ctx.Err())`; otherwise `(resp, nil)` when `err == nil` and no
retry was indicated, a plain giving-up error when `err == nil`, and a
`%w`-wrapping giving-up error otherwise. -/
def retryFinish (req : ReqMeta) : LoopExit → Option HTTPResponse × Option GoError
  | .cancelled _ ce => (none, some ce)
  | .brk attempt resp err sr =>
    match err, sr with
    | none, false => (resp, none)
    | none, true => (none, some (.simple (giveUpMsg req attempt)))
    | some e, _ => (none, some (.wrapped (giveUpMsg req attempt) e))

/-- The handler produced by `RetryMiddleware(rh)` applied to the wrapped
handler and request embodied in `tr`/`req`. -/
def RetryMiddlewareRun (rh : RetryHandler) (tr : Trace) (req : ReqMeta) :
    Option HTTPResponse × Option GoError :=
  retryFinish req (retryLoop rh tr)

/-- How many times the wrapped handler was invoked on this run. -/
def retryCalls (rh : RetryHandler) (tr : Trace) : Nat :=
  (retryLoop rh tr).calls

/-! ## Backoff (`ExponentialBackoffTime`, src/unnamed/part_001 lines 127-145)

`time.Duration` is an `int64` of nanoseconds; here it is an exact `Int`.
The Go code computes `math.Pow(2, retry) * float64(min)` in `float64`
and converts with `int(...)`: for `|min| ≤ 2^53` the float is exact and
the conversion agrees with the exact integer whenever
`|2^retry * min| ≤ 2^63 - 1` (beyond that the conversion is
implementation-defined in Go); the claim theorem carries those bounds as
hypotheses.  The seconds multiplication `time.Second * time.Duration(sleep)`
is likewise modelled exactly. -/

/-- The server-supplied override used by `ExponentialBackoffTime`: when
the response status is 429 or 503 and the first `Retry-After` header
value parses as an `int64`, that number of seconds.  Go would nil-panic
on a present key with an empty value slice (impossible for an
`http.Header`); that case is mapped to no override. -/
def retryAfterSeconds : Option HTTPResponse → Option Int
  | none => none
  | some r =>
    if r.statusCode = 429 ∨ r.statusCode = 503 then
      match headerGet r.header "Retry-After" with
      | some (v :: _) => parseInt64 v
      | _ => none
    else none

/-- The computed exponential wait: `2^retry * min`, clamped from above
to `max` (`if duration > max { duration = max }`). -/
def expWait (retry : Nat) (minW maxW : Int) : Int :=
  let wait := 2 ^ retry * minW
  if wait > maxW then maxW else wait

/-- `ExponentialBackoffTime(retry, min, max, resp)`. -/
def ExponentialBackoffTime (retry : Nat) (minW maxW : Int)
    (resp : Option HTTPResponse) : Int :=
  match retryAfterSeconds resp with
  | some sleep => 1000000000 * sleep
  | none => expWait retry minW maxW

/-! ## Caching middleware (src/middlewares/cache.go lines 11-33)

The go-cache store is keyed by string; the stored value is the
`*http.Response` pointer, which the middleware stores even when it is
nil (it stores on error).  Entry expiry is driven by wall-clock TTL and
a 2×TTL janitor, which the cache claims here do not touch; the store is
modelled as an association list. -/

/-- `strings.ToLower`, character by character (the Go function is
Unicode-aware; the requests the claims touch are ASCII, where
`Char.toLower` agrees with it). -/
def strToLower (s : String) : String :=
  ⟨s.data.map Char.toLower⟩

/-- The in-memory cache store: key to stored `*http.Response`
(`none` = a stored nil pointer). -/
abbrev Cache := List (String × Option HTTPResponse)

/-- `c.Get(key)`: `some v` when the key is present with stored value
`v`, `none` when absent. -/
def Cache.get (c : Cache) (k : String) : Option (Option HTTPResponse) :=
  (List.find? (fun p => p.1 = k) c).map (fun p => p.2)

/-- `c.Set(key, v, ttl)` (the TTL only drives expiry, not lookup). -/
def Cache.set (c : Cache) (k : String) (v : Option HTTPResponse) : Cache :=
  (k, v) :: c

/-- What the caching middleware sees of a request: its method and the
full URL text `req.URL.String()` (scheme, host, path and query). -/
structure CacheRequest where
  method : String
  url : String
deriving DecidableEq, Repr

/-- Outcome of one call through the caching middleware: the returned
pair, the store afterwards, and how many times the wrapped handler ran. -/
structure CacheOutcome where
  resp : Option HTTPResponse
  err : Option GoError
  cache : Cache
  nextCalls : Nat
deriving DecidableEq, Repr

/-- The handler produced by `CachingMiddleware(c, ttl)` around `next`,
with the store threaded explicitly: non-GET requests bypass the cache;
GET requests are keyed by `strings.ToLower(req.URL.String())`; a hit
returns the stored response with a nil error and no `next` call; a miss
calls `next` and stores the result only when `err != nil`. -/
def cachingHandler (c : Cache) (next : CacheRequest → Option HTTPResponse × Option GoError)
    (req : CacheRequest) : CacheOutcome :=
  if req.method ≠ "GET" then
    let p := next req
    ⟨p.1, p.2, c, 1⟩
  else
    let key := strToLower req.url
    match c.get key with
    | some stored => ⟨stored, none, c, 0⟩
    | none =>
      let p := next req
      if p.2 ≠ none then ⟨p.1, p.2, c.set key p.1, 1⟩
      else ⟨p.1, p.2, c, 1⟩

/-! ## RequestExecutor (src/request_executor.go)

The executor is generic in the handler type `α` (in Go,
`middlewares.Handler`); a middleware is `α → α`.  The feature-enabling
methods construct their middleware from Go-side state (a go-cache store,
a `RetryHandler`, a `TokenRefresher`); the constructed middleware enters
the model as an argument, since the guard/list/pipeline logic these
claims are about does not depend on the middleware's meaning.
`WithAuthorization` faithfully reproduces the source's
`re.retryEnabled = true` line (it never sets `authEnabled`). -/

structure RequestExecutor (α : Type) where
  terminal : α
  middlewares : List (α → α)
  pipeline : α
  cacheEnabled : Bool
  retryEnabled : Bool
  authEnabled : Bool

/-- `pipeline = re.do(); for _, h := range middlewares { pipeline = h(pipeline) }`. -/
def composedPipeline {α : Type} (t : α) (ms : List (α → α)) : α :=
  ms.foldl (fun p h => h p) t

/-- `NewRequestExecutor`: empty middleware list, pipeline = the terminal
`do` handler, all feature flags at their zero value `false`. -/
def NewRequestExecutor {α : Type} (t : α) : RequestExecutor α :=
  ⟨t, [], t, false, false, false⟩

/-- `WithMiddleware`: append, then rebuild the pipeline by folding the
terminal handler through the whole list in registration order. -/
def RequestExecutor.WithMiddleware {α : Type} (re : RequestExecutor α) (m : α → α) :
    RequestExecutor α :=
  let ms := re.middlewares ++ [m]
  { re with middlewares := ms, pipeline := composedPipeline re.terminal ms }

/-- `WithMiddlewares`: append several, then rebuild the same way. -/
def RequestExecutor.WithMiddlewares {α : Type} (re : RequestExecutor α) (hs : List (α → α)) :
    RequestExecutor α :=
  let ms := re.middlewares ++ hs
  { re with middlewares := ms, pipeline := composedPipeline re.terminal ms }

/-- `AddCaching`: no-op when `cacheEnabled`; otherwise attach the caching
middleware (built Go-side from a fresh store and the TTL) and set
`cacheEnabled`. -/
def RequestExecutor.AddCaching {α : Type} (re : RequestExecutor α) (cachingMW : α → α) :
    RequestExecutor α :=
  if re.cacheEnabled then re
  else { re.WithMiddleware cachingMW with cacheEnabled := true }

/-- `WithExponentialRetry`: no-op when `retryEnabled`; otherwise attach
the retry middleware and set `retryEnabled`. -/
def RequestExecutor.WithExponentialRetry {α : Type} (re : RequestExecutor α) (retryMW : α → α) :
    RequestExecutor α :=
  if re.retryEnabled then re
  else { re.WithMiddleware retryMW with retryEnabled := true }

/-- `WithLinearRetry`: same guard and flag as the exponential variant. -/
def RequestExecutor.WithLinearRetry {α : Type} (re : RequestExecutor α) (retryMW : α → α) :
    RequestExecutor α :=
  if re.retryEnabled then re
  else { re.WithMiddleware retryMW with retryEnabled := true }

/-- `WithAuthorization`: guarded by `authEnabled`, but the source then
sets `re.retryEnabled = true` — `authEnabled` is never set anywhere. -/
def RequestExecutor.WithAuthorization {α : Type} (re : RequestExecutor α) (authMW : α → α) :
    RequestExecutor α :=
  if re.authEnabled then re
  else { re.WithMiddleware authMW with retryEnabled := true }

/-- The pipeline the spec's words describe for C1: first-registered
outermost, i.e. `m1 (m2 (... (mN terminal)))`.  Used only to contrast
with the source's `composedPipeline`. -/
def specFirstOutermost {α : Type} (t : α) (ms : List (α → α)) : α :=
  ms.foldr (fun m p => m p) t

/-- A tagging middleware over trace-accumulating handlers: on the way
in it appends its tag to the trace, so the trace records outside-in
execution order. -/
def tagMW (i : Nat) : (List Nat → List Nat) → (List Nat → List Nat) :=
  fun next l => next (l ++ [i])

/-! ## swiftreq.Error (src/entities.go) -/

/-- `swiftreq.Error`: message, wrapped cause (a Go `error` interface
value, `none` = nil), HTTP status code. -/
structure Error where
  Message : String
  Cause : Option GoError
  StatusCode : Int
deriving DecidableEq, Repr

/-- The `Error()` method: `fmt.Sprintf("message: %s\n cause: %s\n
statusCode: %d", e.Message, e.Cause.Error(), e.StatusCode)`.  Calling
`.Error()` on a nil `Cause` is a nil-interface method call, which
panics: `none` models the panic. -/
def Error.errorString (e : Error) : Option String :=
  e.Cause.map (fun c =>
    "message: " ++ e.Message ++ "\n cause: " ++ c.message ++ "\n statusCode: " ++ toString e.StatusCode)

/-- The error `Request.Do` builds when the pipeline returns a nil
response and a nil error (src/request.go lines 173-177): only `Message`
is set, so `Cause` is nil and `StatusCode` is the zero value. -/
def emptyResponseError (u : String) : Error :=
  { Message := "calling " ++ u ++ " returned empty response", Cause := none, StatusCode := 0 }

end Swiftreq

example : Swiftreq.redirectsErrorMatch "Get \"http://x\": stopped after 10 redirects" = true := by decide
example : Swiftreq.redirectsErrorMatch "stopped after  redirects" = false := by decide
example : Swiftreq.strMentions "http: unsupported protocol scheme \"abc\"" "unsupported protocol scheme" = true := by decide
example : Swiftreq.parseInt64 "5" = some 5 := by decide
example : Swiftreq.parseInt64 "-12" = some (-12) := by decide
example : Swiftreq.parseInt64 "1a" = none := by decide
example : Swiftreq.shouldRetry none (some ⟨429, "429", []⟩) none = (true, none) := by decide
example : Swiftreq.shouldRetry none (some ⟨503, "503 SU", []⟩) none
    = (true, some (.simple "unexpected HTTP status 503 SU")) := by decide
example : Swiftreq.shouldRetry none (some ⟨501, "501", []⟩) none = (false, none) := by decide
example : Swiftreq.shouldRetry none (some ⟨0, "0", []⟩) none
    = (true, some (.simple "unexpected HTTP status 0")) := by decide

namespace Swiftreq

/-! ## Helper lemmas -/

lemma charsHasSub_suffix (pre pat : List Char) : charsHasSub pat (pre ++ pat) = true := by
  induction pre with
  | nil =>
    cases pat with
    | nil => rfl
    | cons c cs =>
      have h : ∀ (p r : List Char), charsHasPre p (p ++ r) = true := by
        intro p
        induction p with
        | nil => intro r; rfl
        | cons x xs ih => intro r; simp [charsHasPre, ih]
      have h2 := h (c :: cs) []
      simp only [List.append_nil] at h2
      simp [charsHasSub, h2]
  | cons c cs ih => simp [charsHasSub, ih]

lemma string_data_append (s t : String) : (s ++ t).data = s.data ++ t.data := rfl

lemma strMentions_of_suffix (s pat : String) (pre : List Char)
    (h : s.data = pre ++ pat.data) : strMentions s pat = true := by
  unfold strMentions
  rw [h]
  exact charsHasSub_suffix pre pat.data

lemma hasCause_self (e : GoError) : e.hasCause e = true := by
  cases e <;> simp [GoError.hasCause]

end Swiftreq

namespace Swiftreq

/-! ## Claim C1: middleware wrapping order -/

/-- C1 counterexample: with two tagging middlewares attached in order
1, 2, the composed pipeline's outside-in entry trace is `[2, 1]` — the
*last*-registered middleware is outermost — while the claimed
first-registered-outermost composition (`specFirstOutermost`) would give
`[1, 2]`.  This refutes the claim that the first-attached middleware
runs first on the way in. -/
theorem C1_counterexample :
    (((NewRequestExecutor (id : List Nat → List Nat)).WithMiddleware (tagMW 1)).WithMiddleware
        (tagMW 2)).pipeline [] = [2, 1]
    ∧ specFirstOutermost (id : List Nat → List Nat) [tagMW 1, tagMW 2] [] = [1, 2]
    ∧ ([2, 1] : List Nat) ≠ [1, 2] := by
  exact ⟨rfl, rfl, by decide⟩

/-- C1 (amended): `WithMiddleware`/`WithMiddlewares` append to the
ordered list and rebuild the pipeline by folding the terminal handler
through the list in registration order, so the *last*-registered
middleware becomes outermost: attaching `m` turns the pipeline into
`m` applied to the previous pipeline, which leaves the relative order
and behavior of the previously attached middlewares 1..N unchanged
inside it. -/
theorem C1_amended : ∀ (α : Type) (re : RequestExecutor α) (m : α → α) (hs : List (α → α)),
    re.pipeline = composedPipeline re.terminal re.middlewares →
      (re.WithMiddleware m).middlewares = re.middlewares ++ [m]
      ∧ (re.WithMiddleware m).pipeline = m re.pipeline
      ∧ (re.WithMiddlewares hs).pipeline = hs.foldl (fun p h => h p) re.pipeline
      ∧ (re.WithMiddleware m).pipeline
          = composedPipeline (re.WithMiddleware m).terminal (re.WithMiddleware m).middlewares := by
  intro α re m hs hinv
  refine ⟨rfl, ?_, ?_, rfl⟩
  · simp [RequestExecutor.WithMiddleware, composedPipeline, List.foldl_append, hinv]
  · simp [RequestExecutor.WithMiddlewares, composedPipeline, List.foldl_append, hinv]

/-- C1 witness: the amended theorem applied to a concrete executor. -/
theorem C1_amended_witness :
    ((NewRequestExecutor (id : List Nat → List Nat)).WithMiddleware (tagMW 1)).middlewares
      = [tagMW 1]
    ∧ ((NewRequestExecutor (id : List Nat → List Nat)).WithMiddleware (tagMW 1)).pipeline
      = tagMW 1 (NewRequestExecutor (id : List Nat → List Nat)).pipeline := by
  have h := C1_amended (List Nat → List Nat) (NewRequestExecutor id) (tagMW 1) [] rfl
  exact ⟨h.1, h.2.1⟩

/-! ## Claim C4: idempotent-guarded feature enabling -/

/-- C4: the caching and retry guards do make repeated enabling calls
no-ops, but `WithAuthorization` sets `retryEnabled` instead of
`authEnabled` (src/request_executor.go line 174), so `authEnabled`
stays `false`, a second `WithAuthorization` attaches a second
authorization middleware (list length 2), and a later
`WithExponentialRetry` is silently a no-op. -/
theorem C4_auth_flag_bug :
    ((NewRequestExecutor (id : List Nat → List Nat)).WithAuthorization (tagMW 3)).authEnabled = false
    ∧ ((NewRequestExecutor (id : List Nat → List Nat)).WithAuthorization (tagMW 3)).retryEnabled = true
    ∧ (((NewRequestExecutor (id : List Nat → List Nat)).WithAuthorization (tagMW 3)).WithAuthorization
        (tagMW 3)).middlewares.length = 2
    ∧ (((NewRequestExecutor (id : List Nat → List Nat)).WithAuthorization (tagMW 3)).WithExponentialRetry
        (tagMW 4))
        = (NewRequestExecutor (id : List Nat → List Nat)).WithAuthorization (tagMW 3)
    ∧ (((NewRequestExecutor (id : List Nat → List Nat)).AddCaching (tagMW 5)).AddCaching (tagMW 6))
        = ((NewRequestExecutor (id : List Nat → List Nat)).AddCaching (tagMW 5))
    ∧ (((NewRequestExecutor (id : List Nat → List Nat)).WithExponentialRetry (tagMW 4)).WithLinearRetry
        (tagMW 7))
        = ((NewRequestExecutor (id : List Nat → List Nat)).WithExponentialRetry (tagMW 4)) := by
  exact ⟨rfl, rfl, rfl, rfl, rfl, rfl⟩

/-! ## Claim C10: `Error.Error()` with a nil `Cause` -/

/-- C10: `Error()` formats `e.Cause.Error()`, so with a nil `Cause` the
method call panics (modelled as `none`); it is total exactly when
`Cause` is non-nil, and the "returned empty response" error built by
`Request.Do` has a nil `Cause`, so calling `Error()` on it panics. -/
theorem C10_nil_cause :
    (∀ e : Error, e.Cause = none → e.errorString = none)
    ∧ (∀ (e : Error) (c : GoError), e.Cause = some c →
        e.errorString = some ("message: " ++ e.Message ++ "\n cause: " ++ c.message
          ++ "\n statusCode: " ++ toString e.StatusCode))
    ∧ (∀ u : String, (emptyResponseError u).Cause = none ∧ (emptyResponseError u).errorString = none) := by
  refine ⟨?_, ?_, ?_⟩
  · intro e h
    simp [Error.errorString, h]
  · intro e c h
    simp [Error.errorString, h]
  · intro u
    exact ⟨rfl, rfl⟩

/-- C10 witness: the theorem applied to the concrete empty-response
error and to an error with a concrete cause. -/
theorem C10_nil_cause_witness :
    (emptyResponseError "http://x").errorString = none
    ∧ (Error.mk "m" (some (.simple "c")) 7).errorString
      = some ("message: " ++ "m" ++ "\n cause: " ++ (GoError.simple "c").message
          ++ "\n statusCode: " ++ toString (7 : Int)) := by
  exact ⟨C10_nil_cause.1 (emptyResponseError "http://x") rfl,
    C10_nil_cause.2.1 (Error.mk "m" (some (.simple "c")) 7) (.simple "c") rfl⟩

end Swiftreq

namespace Swiftreq

/-- What `retryStep` looks like when the iteration exits: the exit's
attempt index is the current one. -/
lemma retryStep_attempt (rh : RetryHandler) (tr : Trace) (a : Nat) (x : LoopExit)
    (h : retryStep rh tr a = some x) : x.attempt = a := by
  unfold retryStep at h
  dsimp only at h
  split at h
  · cases h; rfl
  · split at h
    · cases h; rfl
    · split at h
      · cases h; rfl
      · cases h

/-- A falling-through iteration had retry budget left. -/
lemma retryStep_none_budget (rh : RetryHandler) (tr : Trace) (a : Nat)
    (h : retryStep rh tr a = none) : ¬ rh.RetryCount - (a : Int) ≤ 0 := by
  unfold retryStep at h
  dsimp only at h
  split at h
  · cases h
  · split at h
    · cases h
    · rename_i h1 h2
      exact h2

/-- A "do not retry" decision makes the iteration break at once. -/
lemma retryStep_no_retry (rh : RetryHandler) (tr : Trace) (a : Nat)
    (h : (shouldRetry (tr.ctxAt a) (tr.next a).1 (tr.next a).2).1 = false) :
    retryStep rh tr a
      = some (.brk a (tr.next a).1 (shouldRetry (tr.ctxAt a) (tr.next a).1 (tr.next a).2).2 false) := by
  unfold retryStep
  dsimp only
  rw [if_pos h, h]

/-- A cancelled context at the decision point breaks with the context
error. -/
lemma retryStep_ctx (rh : RetryHandler) (tr : Trace) (a : Nat) (ce : GoError)
    (h : tr.ctxAt a = some ce) :
    retryStep rh tr a = some (.brk a (tr.next a).1 (some ce) false) := by
  unfold retryStep
  dsimp only
  rw [h]
  simp [shouldRetry]

/-- Retry indicated but budget exhausted: break with `sr = true`. -/
lemma retryStep_exhaust (rh : RetryHandler) (tr : Trace) (a : Nat)
    (h1 : shouldRetry (tr.ctxAt a) (tr.next a).1 (tr.next a).2 = (true, none))
    (h2 : rh.RetryCount - (a : Int) ≤ 0) :
    retryStep rh tr a = some (.brk a (tr.next a).1 none true) := by
  unfold retryStep
  dsimp only
  rw [h1, if_neg (by simp), if_pos h2]

/-- Retry indicated, budget left, timer fires: fall through. -/
lemma retryStep_continue (rh : RetryHandler) (tr : Trace) (a : Nat)
    (h1 : shouldRetry (tr.ctxAt a) (tr.next a).1 (tr.next a).2 = (true, none))
    (h2 : ¬ rh.RetryCount - (a : Int) ≤ 0) (h3 : tr.waitCancel a = none) :
    retryStep rh tr a = none := by
  unfold retryStep
  dsimp only
  rw [h1, if_neg (by simp), if_neg h2, h3]

/-- Retry indicated, budget left, the wait observes `ctx.Done()`: exit
via the cancelled return. -/
lemma retryStep_wait_cancel (rh : RetryHandler) (tr : Trace) (a : Nat) (ce : GoError)
    (hsr : (shouldRetry (tr.ctxAt a) (tr.next a).1 (tr.next a).2).1 = true)
    (h2 : ¬ rh.RetryCount - (a : Int) ≤ 0) (hw : tr.waitCancel a = some ce) :
    retryStep rh tr a = some (.cancelled a ce) := by
  unfold retryStep
  dsimp only
  rw [if_neg (by simp [hsr]), if_neg h2, hw]

/-- The loop's exit attempt never exceeds `max` of the start attempt
and `RetryCount.toNat`; in particular the `fuel = 0` fallback is never
reached from `retryLoop` and the loop makes at most
`RetryCount.toNat + 1` handler calls. -/
lemma retryLoopAux_attempt_le (rh : RetryHandler) (tr : Trace) :
    ∀ (f a : Nat), (retryLoopAux rh tr a f).attempt ≤ max a rh.RetryCount.toNat := by
  intro f
  induction f with
  | zero =>
    intro a
    unfold retryLoopAux
    dsimp only [LoopExit.attempt]
    exact le_max_left _ _
  | succ g ih =>
    intro a
    unfold retryLoopAux
    cases hs : retryStep rh tr a with
    | some x =>
      dsimp only
      rw [retryStep_attempt rh tr a x hs]
      exact le_max_left _ _
    | none =>
      dsimp only
      have hb := retryStep_none_budget rh tr a hs
      have h1 : a + 1 ≤ rh.RetryCount.toNat := by omega
      have h2 := ih (a + 1)
      have h3 : max (a + 1) rh.RetryCount.toNat = rh.RetryCount.toNat :=
        Nat.max_eq_right h1
      rw [h3] at h2
      exact le_trans h2 (le_max_right _ _)

/-- The retry loop invokes the wrapped handler at most
`RetryCount.toNat + 1` times. -/
lemma retryCalls_le (rh : RetryHandler) (tr : Trace) :
    retryCalls rh tr ≤ rh.RetryCount.toNat + 1 := by
  have h := retryLoopAux_attempt_le rh tr (rh.RetryCount.toNat + 1) 0
  unfold retryCalls retryLoop LoopExit.calls
  have h0 : max 0 rh.RetryCount.toNat = rh.RetryCount.toNat := Nat.max_eq_right (Nat.zero_le _)
  rw [h0] at h
  omega

/-- A cancelled context at decision point `a` stops the loop at `a`
with the context error, whatever the remaining fuel and retry budget. -/
lemma retryLoopAux_ctx (rh : RetryHandler) (tr : Trace) (a f : Nat) (ce : GoError)
    (h : tr.ctxAt a = some ce) :
    retryLoopAux rh tr a f = .brk a (tr.next a).1 (some ce) false := by
  cases f with
  | zero =>
    unfold retryLoopAux
    dsimp only
    rw [h]
    simp [shouldRetry]
  | succ g =>
    unfold retryLoopAux
    rw [retryStep_ctx rh tr a ce h]

/-- When every decision says retry with no error and no wait is ever
cancelled, the loop runs to attempt `RetryCount` and breaks there. -/
lemma retryLoopAux_always (rh : RetryHandler) (tr : Trace) (n : Nat)
    (hrc : rh.RetryCount = (n : Int))
    (H1 : ∀ k, shouldRetry (tr.ctxAt k) (tr.next k).1 (tr.next k).2 = (true, none))
    (H2 : ∀ k, tr.waitCancel k = none) :
    ∀ (f a : Nat), a + f = n + 1 → a ≤ n →
      retryLoopAux rh tr a f = .brk n (tr.next n).1 none true := by
  intro f
  induction f with
  | zero =>
    intro a ha han
    omega
  | succ g ih =>
    intro a ha han
    unfold retryLoopAux
    rcases Nat.lt_or_ge a n with hlt | hge
    · rw [retryStep_continue rh tr a (H1 a) (by omega) (H2 a)]
      exact ih (a + 1) (by omega) (by omega)
    · have han' : a = n := by omega
      subst han'
      rw [retryStep_exhaust rh tr a (H1 a) (by omega)]

/-- If the very first decision is "do not retry", the loop breaks at
attempt 0 with that decision's error. -/
lemma retryLoop_first_no_retry (rh : RetryHandler) (tr : Trace)
    (h : (shouldRetry (tr.ctxAt 0) (tr.next 0).1 (tr.next 0).2).1 = false) :
    retryLoop rh tr
      = .brk 0 (tr.next 0).1 (shouldRetry (tr.ctxAt 0) (tr.next 0).1 (tr.next 0).2).2 false := by
  unfold retryLoop retryLoopAux
  rw [retryStep_no_retry rh tr 0 h]

/-- If the first decision is "retry", budget remains, and the first
backoff wait observes `ctx.Done()`, the loop exits via the cancelled
return. -/
lemma retryLoop_first_wait_cancel (rh : RetryHandler) (tr : Trace) (ce : GoError)
    (hsr : (shouldRetry (tr.ctxAt 0) (tr.next 0).1 (tr.next 0).2).1 = true)
    (hrc : 0 < rh.RetryCount)
    (hw : tr.waitCancel 0 = some ce) :
    retryLoop rh tr = .cancelled 0 ce := by
  unfold retryLoop retryLoopAux
  rw [retryStep_wait_cancel rh tr 0 ce hsr (by omega) hw]

end Swiftreq

namespace Swiftreq

/-! ## Claim C2: attempt count and exhausted-retry message -/

/-- C2 counterexample: with retry count N = 0 and a handler that always
fails retryably, the middleware makes N + 1 = 1 handler call, but the
exhausted-retry error message says "giving up after 0 attempt(s)" — it
mentions N, not N + 1.  The message does not contain "1 attempt(s)". -/
theorem C2_counterexample :
    retryCalls ⟨500000000, 10000000000, 0, fun _ _ _ _ => 0⟩
        ⟨fun _ => (none, some (.simple "boom")), fun _ => none, fun _ => none⟩ = 0 + 1
    ∧ RetryMiddlewareRun ⟨500000000, 10000000000, 0, fun _ _ _ _ => 0⟩
        ⟨fun _ => (none, some (.simple "boom")), fun _ => none, fun _ => none⟩
        ⟨"GET", "http://host/a"⟩
      = (none, some (.simple "GET http://host/a giving up after 0 attempt(s)"))
    ∧ strMentions "GET http://host/a giving up after 0 attempt(s)" "1 attempt(s)" = false := by
  exact ⟨by decide, by decide, by decide⟩

/-- C2 (amended): for retry count N ≥ 0 and a handler that always fails
with a retryable error, the middleware invokes the handler exactly N + 1
times and returns an exhausted-retry error whose message mentions N (the
retry count — "giving up after N attempt(s)" — not N + 1); in general,
for any handler and trace, the loop makes at most `RetryCount.toNat + 1`
attempts. -/
theorem C2_amended : ∀ (n : Nat) (rh : RetryHandler) (tr : Trace) (req : ReqMeta),
    rh.RetryCount = (n : Int) →
    (∀ k, (tr.next k).2 ≠ none) →
    (∀ k, shouldRetry (tr.ctxAt k) (tr.next k).1 (tr.next k).2 = (true, none)) →
    (∀ k, tr.waitCancel k = none) →
      retryCalls rh tr = n + 1
      ∧ RetryMiddlewareRun rh tr req = (none, some (.simple (giveUpMsg req n)))
      ∧ strMentions (giveUpMsg req n) (" giving up after " ++ toString n ++ " attempt(s)") = true
      ∧ (∀ (rh2 : RetryHandler) (tr2 : Trace), retryCalls rh2 tr2 ≤ rh2.RetryCount.toNat + 1) := by
  intro n rh tr req hrc _hfail H1 H2
  have htn : rh.RetryCount.toNat = n := by omega
  have hloop : retryLoop rh tr = .brk n (tr.next n).1 none true := by
    unfold retryLoop
    rw [htn]
    exact retryLoopAux_always rh tr n hrc H1 H2 (n + 1) 0 (by omega) (by omega)
  refine ⟨?_, ?_, ?_, fun rh2 tr2 => retryCalls_le rh2 tr2⟩
  · unfold retryCalls
    rw [hloop]
    rfl
  · unfold RetryMiddlewareRun
    rw [hloop]
    rfl
  · refine strMentions_of_suffix _ _ ((req.method ++ " " ++ req.url).data) ?_
    unfold giveUpMsg
    simp [string_data_append, List.append_assoc]

/-- C2 witness: the amended theorem at N = 1 with an always-failing
handler. -/
theorem C2_amended_witness :
    retryCalls ⟨500000000, 10000000000, 1, fun _ _ _ _ => 0⟩
        ⟨fun _ => (none, some (.simple "boom")), fun _ => none, fun _ => none⟩ = 1 + 1
    ∧ RetryMiddlewareRun ⟨500000000, 10000000000, 1, fun _ _ _ _ => 0⟩
        ⟨fun _ => (none, some (.simple "boom")), fun _ => none, fun _ => none⟩
        ⟨"GET", "http://host/a"⟩
      = (none, some (.simple (giveUpMsg ⟨"GET", "http://host/a"⟩ 1))) := by
  have h := C2_amended 1 ⟨500000000, 10000000000, 1, fun _ _ _ _ => 0⟩
      ⟨fun _ => (none, some (.simple "boom")), fun _ => none, fun _ => none⟩
      ⟨"GET", "http://host/a"⟩ rfl (fun _ => by simp) (fun _ => rfl) (fun _ => rfl)
  exact ⟨h.1, h.2.1⟩

/-! ## Claim C5: status-based retry decision -/

/-- C5 counterexample: a response with status code 0 is neither 429 nor
a 5xx status, so the claim calls it terminal, yet `shouldRetry` retries
it (the code's explicit `resp.StatusCode == 0` arm). -/
theorem C5_counterexample :
    (shouldRetry none (some ⟨0, "0 status code 0", []⟩) none).1 = true
    ∧ ((0 : Int) = 429 → False)
    ∧ ¬(500 ≤ (0 : Int) ∧ (0 : Int) ≤ 599 ∧ (0 : Int) ≠ 501) := by
  exact ⟨by decide, by decide, by decide⟩

/-- C5 (amended): with no transport error and no context cancellation,
status 429 is always retried without wrapping; status 0 and every
status ≥ 500 except 501 (not only the 5xx range) are retried and
wrapped in a descriptive "unexpected HTTP status" error; every other
status is terminal and returned without retry. -/
theorem C5_amended : ∀ r : HTTPResponse,
    (r.statusCode = 429 → shouldRetry none (some r) none = (true, none))
    ∧ (r.statusCode ≠ 429 → (r.statusCode = 0 ∨ (500 ≤ r.statusCode ∧ r.statusCode ≠ 501)) →
        shouldRetry none (some r) none
          = (true, some (.simple ("unexpected HTTP status " ++ r.status))))
    ∧ (r.statusCode ≠ 429 → r.statusCode ≠ 0 → ¬(500 ≤ r.statusCode ∧ r.statusCode ≠ 501) →
        shouldRetry none (some r) none = (false, none)) := by
  intro r
  refine ⟨fun h => ?_, fun h1 h2 => ?_, fun h1 h2 h3 => ?_⟩
  · unfold shouldRetry
    dsimp only
    rw [if_pos h]
  · unfold shouldRetry
    dsimp only
    rw [if_neg h1, if_pos h2]
  · unfold shouldRetry
    dsimp only
    rw [if_neg h1, if_neg (fun hc => hc.elim h2 h3)]

/-- C5 witness: the amended theorem at statuses 429, 502 and 200. -/
theorem C5_amended_witness :
    shouldRetry none (some ⟨429, "429 Too Many Requests", []⟩) none = (true, none)
    ∧ shouldRetry none (some ⟨502, "502 Bad Gateway", []⟩) none
      = (true, some (.simple ("unexpected HTTP status " ++ "502 Bad Gateway")))
    ∧ shouldRetry none (some ⟨200, "200 OK", []⟩) none = (false, none) := by
  exact ⟨(C5_amended _).1 rfl, (C5_amended _).2.1 (by decide) (by decide),
    (C5_amended _).2.2 (by decide) (by decide) (by decide)⟩

/-! ## Claim C6: structurally unrecoverable transport errors -/

/-- C6 counterexample: on a redirect-limit `*url.Error` with retry
count 5, the middleware does make exactly one attempt, but the error it
returns is not that error — it is a "giving up after 0 attempt(s)"
error wrapping it. -/
theorem C6_counterexample :
    retryCalls ⟨500000000, 10000000000, 5, fun _ _ _ _ => 0⟩
        ⟨fun _ => (none, some (.urlErr "Get \"http://x\": stopped after 10 redirects" false)),
          fun _ => none, fun _ => none⟩ = 1
    ∧ RetryMiddlewareRun ⟨500000000, 10000000000, 5, fun _ _ _ _ => 0⟩
        ⟨fun _ => (none, some (.urlErr "Get \"http://x\": stopped after 10 redirects" false)),
          fun _ => none, fun _ => none⟩ ⟨"GET", "http://x"⟩
      = (none, some (.wrapped "GET http://x giving up after 0 attempt(s)"
          (.urlErr "Get \"http://x\": stopped after 10 redirects" false)))
    ∧ RetryMiddlewareRun ⟨500000000, 10000000000, 5, fun _ _ _ _ => 0⟩
        ⟨fun _ => (none, some (.urlErr "Get \"http://x\": stopped after 10 redirects" false)),
          fun _ => none, fun _ => none⟩ ⟨"GET", "http://x"⟩
      ≠ (none, some (.urlErr "Get \"http://x\": stopped after 10 redirects" false)) := by
  exact ⟨by decide, by decide, by decide⟩

/-- C6 (amended): when the first attempt's transport error is a
`*url.Error` classified structurally unrecoverable (redirect limit,
unsupported scheme, untrusted/unknown certificate authority), the
middleware makes exactly one attempt regardless of the configured retry
count and immediately returns a "giving up after 0 attempt(s)" error
wrapping that error as its cause; every transport error not so
classified is retried. -/
theorem C6_amended : ∀ (rh : RetryHandler) (tr : Trace) (req : ReqMeta) (msg : String)
    (uca : Bool) (resp0 : Option HTTPResponse),
    tr.ctxAt 0 = none →
    tr.next 0 = (resp0, some (.urlErr msg uca)) →
    unrecoverableURLError msg uca = true →
      retryCalls rh tr = 1
      ∧ RetryMiddlewareRun rh tr req
          = (none, some (.wrapped (giveUpMsg req 0) (.urlErr msg uca)))
      ∧ (∀ (e : GoError) (resp : Option HTTPResponse), unrecoverableErr e = false →
          shouldRetry none resp (some e) = (true, none)) := by
  intro rh tr req msg uca resp0 hctx hnext hcls
  have hsr : shouldRetry (tr.ctxAt 0) (tr.next 0).1 (tr.next 0).2
      = (false, some (.urlErr msg uca)) := by
    rw [hctx, hnext]
    dsimp only
    unfold shouldRetry
    dsimp only
    rw [show unrecoverableErr (.urlErr msg uca) = true from hcls, if_pos rfl]
  have hloop := retryLoop_first_no_retry rh tr (by rw [hsr])
  rw [hsr] at hloop
  refine ⟨?_, ?_, ?_⟩
  · unfold retryCalls
    rw [hloop]
    rfl
  · unfold RetryMiddlewareRun
    rw [hloop]
    rfl
  · intro e resp he
    unfold shouldRetry
    dsimp only
    rw [he]
    rfl

/-- C6 witness: the amended theorem on a concrete unsupported-scheme
error with retry count 7. -/
theorem C6_amended_witness :
    retryCalls ⟨500000000, 10000000000, 7, fun _ _ _ _ => 0⟩
        ⟨fun _ => (none, some (.urlErr "Get \"abc://x\": unsupported protocol scheme \"abc\"" false)),
          fun _ => none, fun _ => none⟩ = 1
    ∧ RetryMiddlewareRun ⟨500000000, 10000000000, 7, fun _ _ _ _ => 0⟩
        ⟨fun _ => (none, some (.urlErr "Get \"abc://x\": unsupported protocol scheme \"abc\"" false)),
          fun _ => none, fun _ => none⟩ ⟨"GET", "abc://x"⟩
      = (none, some (.wrapped (giveUpMsg ⟨"GET", "abc://x"⟩ 0)
          (.urlErr "Get \"abc://x\": unsupported protocol scheme \"abc\"" false))) := by
  have h := C6_amended ⟨500000000, 10000000000, 7, fun _ _ _ _ => 0⟩
      ⟨fun _ => (none, some (.urlErr "Get \"abc://x\": unsupported protocol scheme \"abc\"" false)),
        fun _ => none, fun _ => none⟩ ⟨"GET", "abc://x"⟩
      "Get \"abc://x\": unsupported protocol scheme \"abc\"" false none rfl rfl (by decide)
  exact ⟨h.1, h.2.1⟩

/-! ## Claim C7: context cancellation -/

/-- C7: a cancelled/expired context stops the retry loop immediately.
(1) If `ctx.Err()` is non-nil at the first decision point, exactly one
attempt is made — whatever the attempt returned — and the result is a
"giving up after 0 attempt(s)" error whose cause chain contains the
context's error.  (2) In general, a non-nil `ctx.Err()` at decision
point `a` breaks the loop right there with the context error.  (3) If
cancellation is observed during a backoff wait, the middleware returns
the context's cancellation error itself, with no further attempts. -/
theorem C7_cancelled :
    (∀ (rh : RetryHandler) (tr : Trace) (req : ReqMeta) (ce : GoError),
      tr.ctxAt 0 = some ce →
        retryCalls rh tr = 1
        ∧ RetryMiddlewareRun rh tr req = (none, some (.wrapped (giveUpMsg req 0) ce))
        ∧ (RetryMiddlewareRun rh tr req).2.map (fun e => e.hasCause ce) = some true)
    ∧ (∀ (rh : RetryHandler) (tr : Trace) (a f : Nat) (ce : GoError),
        tr.ctxAt a = some ce →
          retryLoopAux rh tr a f = .brk a (tr.next a).1 (some ce) false)
    ∧ (∀ (rh : RetryHandler) (tr : Trace) (req : ReqMeta) (ce : GoError),
        (shouldRetry (tr.ctxAt 0) (tr.next 0).1 (tr.next 0).2).1 = true →
        0 < rh.RetryCount →
        tr.waitCancel 0 = some ce →
          retryCalls rh tr = 1 ∧ RetryMiddlewareRun rh tr req = (none, some ce)) := by
  refine ⟨?_, fun rh tr a f ce h => retryLoopAux_ctx rh tr a f ce h, ?_⟩
  · intro rh tr req ce h
    have hloop : retryLoop rh tr = .brk 0 (tr.next 0).1 (some ce) false :=
      retryLoopAux_ctx rh tr 0 (rh.RetryCount.toNat + 1) ce h
    refine ⟨?_, ?_, ?_⟩
    · unfold retryCalls
      rw [hloop]
      rfl
    · unfold RetryMiddlewareRun
      rw [hloop]
      rfl
    · unfold RetryMiddlewareRun
      rw [hloop]
      show some ((GoError.wrapped (giveUpMsg req 0) ce).hasCause ce) = some true
      rw [show (GoError.wrapped (giveUpMsg req 0) ce).hasCause ce = true from by
        unfold GoError.hasCause
        rw [hasCause_self ce]
        simp]
  · intro rh tr req ce hsr hrc hw
    have hloop := retryLoop_first_wait_cancel rh tr ce hsr hrc hw
    refine ⟨?_, ?_⟩
    · unfold retryCalls
      rw [hloop]
      rfl
    · unfold RetryMiddlewareRun
      rw [hloop]
      rfl

/-- C7 witness: both observation modes at concrete traces — context
already cancelled at the first decision, and cancellation during the
first backoff wait. -/
theorem C7_cancelled_witness :
    retryCalls ⟨500000000, 10000000000, 3, fun _ _ _ _ => 0⟩
        ⟨fun _ => (some ⟨200, "200 OK", []⟩, none), fun _ => some (.simple "context canceled"),
          fun _ => none⟩ = 1
    ∧ RetryMiddlewareRun ⟨500000000, 10000000000, 3, fun _ _ _ _ => 0⟩
        ⟨fun _ => (some ⟨200, "200 OK", []⟩, none), fun _ => some (.simple "context canceled"),
          fun _ => none⟩ ⟨"GET", "http://c"⟩
      = (none, some (.wrapped (giveUpMsg ⟨"GET", "http://c"⟩ 0) (.simple "context canceled")))
    ∧ retryCalls ⟨500000000, 10000000000, 3, fun _ _ _ _ => 0⟩
        ⟨fun _ => (none, some (.simple "boom")), fun _ => none,
          fun _ => some (.simple "context canceled")⟩ = 1
    ∧ RetryMiddlewareRun ⟨500000000, 10000000000, 3, fun _ _ _ _ => 0⟩
        ⟨fun _ => (none, some (.simple "boom")), fun _ => none,
          fun _ => some (.simple "context canceled")⟩ ⟨"GET", "http://c"⟩
      = (none, some (.simple "context canceled")) := by
  have h1 := C7_cancelled.1 ⟨500000000, 10000000000, 3, fun _ _ _ _ => 0⟩
      ⟨fun _ => (some ⟨200, "200 OK", []⟩, none), fun _ => some (.simple "context canceled"),
        fun _ => none⟩ ⟨"GET", "http://c"⟩ (.simple "context canceled") rfl
  have h2 := C7_cancelled.2.2 ⟨500000000, 10000000000, 3, fun _ _ _ _ => 0⟩
      ⟨fun _ => (none, some (.simple "boom")), fun _ => none,
        fun _ => some (.simple "context canceled")⟩ ⟨"GET", "http://c"⟩
      (.simple "context canceled") (by decide) (by decide) rfl
  exact ⟨h1.1, h1.2.1, h2.1, h2.2⟩

end Swiftreq

namespace Swiftreq

/-! ## Claim C3: caching middleware contract -/

/-- C3: through the caching middleware, (1) a non-GET request is always
forwarded and the cache is neither consulted nor changed; (2) a GET is
keyed by the lowercased full URL text, and on a hit the stored response
is returned with a nil error and without invoking the wrapped handler;
(3) on a miss the wrapped handler runs once and its result is stored
only when the call failed — successful results leave the store
unchanged. -/
theorem C3_caching :
    (∀ (c : Cache) (next : CacheRequest → Option HTTPResponse × Option GoError)
        (req : CacheRequest), req.method ≠ "GET" →
        cachingHandler c next req = ⟨(next req).1, (next req).2, c, 1⟩)
    ∧ (∀ (c : Cache) (next : CacheRequest → Option HTTPResponse × Option GoError)
        (req : CacheRequest) (stored : Option HTTPResponse), req.method = "GET" →
        Cache.get c (strToLower req.url) = some stored →
        cachingHandler c next req = ⟨stored, none, c, 0⟩)
    ∧ (∀ (c : Cache) (next : CacheRequest → Option HTTPResponse × Option GoError)
        (req : CacheRequest), req.method = "GET" →
        Cache.get c (strToLower req.url) = none →
        cachingHandler c next req
          = ⟨(next req).1, (next req).2,
              if (next req).2 = none then c else Cache.set c (strToLower req.url) (next req).1,
              1⟩) := by
  refine ⟨?_, ?_, ?_⟩
  · intro c next req h
    unfold cachingHandler
    rw [if_pos h]
  · intro c next req stored h hs
    unfold cachingHandler
    rw [if_neg (by simp [h])]
    dsimp only
    rw [hs]
  · intro c next req h hm
    unfold cachingHandler
    rw [if_neg (by simp [h])]
    dsimp only
    rw [hm]
    dsimp only
    cases hn : (next req).2 with
    | none => simp [hn]
    | some e => simp [hn]

/-- C3 witness: the theorem at a non-GET request, a case-variant GET
hit, a failing miss (stored), and a successful miss (not stored). -/
theorem C3_caching_witness :
    cachingHandler [] (fun _ => (some ⟨201, "201 Created", []⟩, none)) ⟨"POST", "http://A/x"⟩
      = ⟨some ⟨201, "201 Created", []⟩, none, [], 1⟩
    ∧ cachingHandler [("http://a/x?id=1", some ⟨200, "200 OK", []⟩)] (fun _ => (none, none))
        ⟨"GET", "http://A/X?id=1"⟩
      = ⟨some ⟨200, "200 OK", []⟩, none, [("http://a/x?id=1", some ⟨200, "200 OK", []⟩)], 0⟩
    ∧ cachingHandler [] (fun _ => (none, some (.simple "boom"))) ⟨"GET", "http://A/x"⟩
      = ⟨none, some (.simple "boom"), [("http://a/x", none)], 1⟩
    ∧ cachingHandler [] (fun _ => (some ⟨200, "200 OK", []⟩, none)) ⟨"GET", "http://A/x"⟩
      = ⟨some ⟨200, "200 OK", []⟩, none, [], 1⟩ := by
  refine ⟨C3_caching.1 _ _ _ (by decide), ?_, ?_, ?_⟩
  · exact C3_caching.2.1 [("http://a/x?id=1", some ⟨200, "200 OK", []⟩)] (fun _ => (none, none))
      ⟨"GET", "http://A/X?id=1"⟩ (some ⟨200, "200 OK", []⟩) rfl (by decide)
  · have h := C3_caching.2.2 [] (fun _ => (none, some (.simple "boom"))) ⟨"GET", "http://A/x"⟩
      rfl (by decide)
    simpa [Cache.set] using h
  · have h := C3_caching.2.2 [] (fun _ => (some ⟨200, "200 OK", []⟩, none)) ⟨"GET", "http://A/x"⟩
      rfl (by decide)
    simpa using h

/-! ## Claim C8: exponential backoff -/

/-- C8: without a server override, `ExponentialBackoffTime` equals
`min(max, min·2^attempt)` (stated under the bounds within which the Go
`float64` computation and `int` conversion are exact:
`|min| ≤ 2^53` and `|2^attempt · min| ≤ 2^63 − 1`); with a 429/503
response whose first `Retry-After` value parses as an integer, exactly
that many seconds is returned regardless of the attempt number; and the
claim's concrete values hold: 500ms at attempt 0, 8s at attempt 4, 10s
(clamped) at attempt 5, 5s under `Retry-After: 5`, and no override on a
non-429/503 status. -/
theorem C8_backoff :
    (∀ (retry : Nat) (minW maxW : Int) (resp : Option HTTPResponse),
        retryAfterSeconds resp = none →
        minW.natAbs ≤ 2 ^ 53 → (2 ^ retry * minW).natAbs ≤ 2 ^ 63 - 1 →
        ExponentialBackoffTime retry minW maxW resp = min maxW (2 ^ retry * minW))
    ∧ (∀ (retry : Nat) (minW maxW : Int) (resp : Option HTTPResponse) (sleep : Int),
        retryAfterSeconds resp = some sleep →
        (1000000000 * sleep).natAbs ≤ 2 ^ 63 - 1 →
        ExponentialBackoffTime retry minW maxW resp = 1000000000 * sleep)
    ∧ ExponentialBackoffTime 0 500000000 10000000000 none = 500000000
    ∧ ExponentialBackoffTime 4 500000000 10000000000 none = 8000000000
    ∧ ExponentialBackoffTime 5 500000000 10000000000 none = 10000000000
    ∧ (∀ retry : Nat,
        ExponentialBackoffTime retry 500000000 10000000000
          (some ⟨429, "429 Too Many Requests", [("Retry-After", ["5"])]⟩) = 5000000000)
    ∧ ExponentialBackoffTime 2 500000000 10000000000
        (some ⟨200, "200 OK", [("Retry-After", ["5"])]⟩) = 2000000000 := by
  refine ⟨?_, ?_, by decide, by decide, by decide, ?_, by decide⟩
  · intro retry minW maxW resp h _ _
    unfold ExponentialBackoffTime
    rw [h]
    unfold expWait
    dsimp only
    rcases le_or_lt (2 ^ retry * minW) maxW with hle | hlt
    · rw [if_neg (not_lt.mpr hle), min_eq_right hle]
    · rw [if_pos hlt, min_eq_left (le_of_lt hlt)]
  · intro retry minW maxW resp sleep h _
    unfold ExponentialBackoffTime
    rw [h]
  · intro retry
    unfold ExponentialBackoffTime
    have h5 : retryAfterSeconds
        (some ⟨429, "429 Too Many Requests", [("Retry-After", ["5"])]⟩) = some 5 := by decide
    rw [h5]
    rfl

/-- C8 witness: the quantified conjuncts at concrete inputs. -/
theorem C8_backoff_witness :
    ExponentialBackoffTime 5 500000000 10000000000 none = min 10000000000 (2 ^ 5 * 500000000)
    ∧ ExponentialBackoffTime 9 500000000 10000000000
        (some ⟨503, "503 Service Unavailable", [("Retry-After", ["7"])]⟩) = 1000000000 * 7 := by
  refine ⟨C8_backoff.1 5 500000000 10000000000 none (by decide) (by decide) (by decide),
    C8_backoff.2.1 9 500000000 10000000000 _ 7 (by decide) (by decide)⟩

end Swiftreq
